import Mathlib

/-!
Verification of the twitter entrypoint pipeline (`app/entrypoints/twitter.py`,
function `run_twitter_agents`): a shallow embedding of the per-agent polling
cycle as a pure function from an agent, an environment of external-call
results, and the agent's persisted state to a final state together with an
event trace, plus theorems about quota, cursor and error-isolation behaviour.
-/

set_option autoImplicit false

namespace Intentkit

/-- A mention as used by the pipeline: `tweet_fields=["created_at", "author_id",
"text"]`; only `id`, `author_id` and `text` are read by the code. -/
structure Mention where
  id : String
  author_id : String
  text : String
deriving DecidableEq, Repr

/-- The result of `client.get_users_mentions`: the `data` list of mentions
(`None`/empty modelled as `[]`) and the `meta` dict (a string-keyed map;
an absent/empty — hence falsy — meta is `[]`). -/
structure MentionsResp where
  data : List Mention
  meta : List (String × String)
deriving DecidableEq, Repr

/-- Per-agent quota counters, fields as on `AgentQuota`. -/
structure QuotaState where
  twitter_count_daily : Nat
  twitter_limit_daily : Nat
  twitter_count_total : Nat
  twitter_limit_total : Nat
deriving DecidableEq, Repr

/-- Modelled from the spec: `AgentQuota.has_twitter_quota` (defined in
`app.models.agent`, which is not among the sources) — "true iff both daily and
total counters are strictly below their limits. No side effect." -/
def has_twitter_quota (q : QuotaState) : Bool :=
  decide (q.twitter_count_daily < q.twitter_limit_daily) &&
  decide (q.twitter_count_total < q.twitter_limit_total)

/-- Modelled from the spec: `AgentQuota.add_twitter` (defined in
`app.models.agent`, which is not among the sources) — "atomically increments
daily and total counters by one", one unit per successful cycle. -/
def add_twitter (q : QuotaState) : QuotaState :=
  { q with
    twitter_count_daily := q.twitter_count_daily + 1
    twitter_count_total := q.twitter_count_total + 1 }

/-- An agent row as read by the pipeline: id, the `twitter_enabled` flag and
the `twitter_config` credential dict (`none` = SQL NULL; `some []` = an empty,
falsy dict). -/
structure Agent where
  id : String
  twitter_enabled : Bool
  twitter_config : Option (List (String × String))
deriving DecidableEq, Repr

/-- Python truthiness of `agent.twitter_config`: `None` and the empty dict are
falsy. -/
def configTruthy : Option (List (String × String)) → Bool
  | none => false
  | some l => !l.isEmpty

/-- The persisted per-agent state touched by one cycle: the
`(agent_id, "twitter", "entrypoint")` plugin-data record (`none` = no record or
falsy `data`; `some v` = record with `data = {"last_tweet_id": v}` where `v`
itself may be `None`) and the quota counters. -/
structure AgentState where
  cursor : Option (Option String)
  quota : QuotaState
deriving DecidableEq, Repr

/-- Observable actions of one cycle, in program order: log lines, external
calls and persistence writes. -/
inductive Event where
  | logWarnNoQuota (agentId : String) (cd ld ct lt : Nat)
  | logWarnNoConfig (agentId : String)
  | buildClient (agentId : String)
  | callGetMe (agentId : String)
  | logErrGetMe (agentId : String)
  | callGetMentions (agentId : String) (sinceId : Option String)
  | logInfoNoMentions (agentId : String)
  | saveCursor (agentId : String) (lastTweetId : Option String)
  | callExecuteAgent (agentId : String) (text : String) (threadId : String)
  | callCreateTweet (text : String) (inReplyTo : String)
  | consumeQuota (agentId : String)
  | logErrProcessing (agentId : String) (msg : String)
deriving DecidableEq, Repr

/-- The outcomes the environment supplies to one agent's cycle: whether the
quota load (`AgentQuota.get`) or the quota check (`has_twitter_quota(db)`)
raises, and the results of `get_me`, `get_users_mentions`, `execute_agent`
(agent id, mention text, thread id) and `create_tweet` (text, reply-to id).
Errors are the raised exception messages. -/
structure Env where
  quotaGetExc : Option String
  hasQuotaExc : Option String
  getMe : Except String (Option String)
  getMentions : Except String MentionsResp
  executeAgent : String → String → String → Except String (List String)
  createTweet : String → String → Except String Unit

/-- The `for mention in mentions.data` loop: derive the thread id, invoke the
response engine, post the joined reply lines as a reply to the mention; the
first raised error aborts the rest of the list. Returns the events of the loop
and the uncaught error, if any. -/
def processMentions (agent : Agent) (env : Env) : List Mention → List Event × Option String
  | [] => ([], none)
  | m :: rest =>
    let threadId := agent.id ++ "-twitter-" ++ m.author_id
    match env.executeAgent agent.id m.text threadId with
    | .error e => ([.callExecuteAgent agent.id m.text threadId], some e)
    | .ok response =>
      let text := String.intercalate "\n" response
      match env.createTweet text m.id with
      | .error e =>
          ([.callExecuteAgent agent.id m.text threadId, .callCreateTweet text m.id], some e)
      | .ok _ =>
          let r := processMentions agent env rest
          (.callExecuteAgent agent.id m.text threadId :: .callCreateTweet text m.id :: r.1,
           r.2)

/-- The body of the per-agent `try` block, straight from the source: quota
load and check, config truthiness check, client build, `get_me`, cursor read,
mention fetch, the no-mentions early exit, the cursor save / missing-meta
raise, the mention loop, and the final quota consumption. Returns the final
persisted state, the events, and the uncaught exception message, if any. -/
def cycleBody (agent : Agent) (env : Env) (st : AgentState) :
    AgentState × List Event × Option String :=
  match env.quotaGetExc with
  | some e => (st, [], some e)
  | none =>
  match env.hasQuotaExc with
  | some e => (st, [], some e)
  | none =>
  if !has_twitter_quota st.quota then
    (st, [.logWarnNoQuota agent.id st.quota.twitter_count_daily st.quota.twitter_limit_daily
            st.quota.twitter_count_total st.quota.twitter_limit_total], none)
  else if !configTruthy agent.twitter_config then
    (st, [.logWarnNoConfig agent.id], none)
  else
    let evs0 : List Event := [.buildClient agent.id, .callGetMe agent.id]
    match env.getMe with
    | .error e => (st, evs0, some e)
    | .ok none => (st, evs0 ++ [.logErrGetMe agent.id], none)
    | .ok (some _selfId) =>
      let since_id := st.cursor.join
      let evs1 := evs0 ++ [.callGetMentions agent.id since_id]
      match env.getMentions with
      | .error e => (st, evs1, some e)
      | .ok mentions =>
        if mentions.data.isEmpty then
          (st, evs1 ++ [.logInfoNoMentions agent.id], none)
        else if !mentions.meta.isEmpty then
          let last_tweet_id := mentions.meta.lookup "newest_id"
          let st1 : AgentState := { st with cursor := some last_tweet_id }
          let evs2 := evs1 ++ [.saveCursor agent.id last_tweet_id]
          let r := processMentions agent env mentions.data
          match r.2 with
          | some e => (st1, evs2 ++ r.1, some e)
          | none =>
            ({ st1 with quota := add_twitter st1.quota },
             evs2 ++ r.1 ++ [.consumeQuota agent.id], none)
        else
          (st, evs1, some ("Failed to get last tweet id for agent " ++ agent.id))

/-- One agent's iteration including the `except Exception` handler: an
uncaught error from the body is logged with the agent id and message and
swallowed (`continue`). -/
def runAgentCycle (agent : Agent) (env : Env) (st : AgentState) :
    AgentState × List Event :=
  match cycleBody agent env st with
  | (st', evs, none) => (st', evs)
  | (st', evs, some e) =>
      (st', evs ++ [.logErrProcessing agent.id
        ("Error processing twitter mentions for agent " ++ agent.id ++ ": " ++ e)])

/-- The SQL filter of the agent query: `twitter_enabled == True` and
`twitter_config != None` (SQL NULL test, not Python truthiness). -/
def twitterEnabledFilter (agents : List Agent) : List Agent :=
  agents.filter (fun a => a.twitter_enabled && a.twitter_config.isSome)

/-- One tick of `run_twitter_agents`: every filtered agent is processed in
order, each with its own environment and persisted state; the result records
each agent's final state and events. -/
def run_twitter_agents (agents : List Agent) (env : Agent → Env)
    (st : String → AgentState) : List (String × AgentState × List Event) :=
  (twitterEnabledFilter agents).map (fun a =>
    let r := runAgentCycle a (env a) (st a.id)
    (a.id, r.1, r.2))

/-- Recognizer for response-engine invocation events. -/
def isExecuteEvent : Event → Bool
  | .callExecuteAgent _ _ _ => true
  | _ => false

/-- Recognizer for quota-consumption events. -/
def isConsumeEvent : Event → Bool
  | .consumeQuota _ => true
  | _ => false

/-- Recognizer for error-log events. -/
def isErrorLogEvent : Event → Bool
  | .logErrProcessing _ _ => true
  | _ => false

/-- A successful association-list lookup means the list is non-empty. -/
theorem lookup_some_isEmpty_false {α β : Type} [BEq α] {l : List (α × β)} {k : α} {v : β}
    (h : l.lookup k = some v) : l.isEmpty = false := by
  cases l with
  | nil => simp [List.lookup] at h
  | cons a t => simp

/-- The mention loop emits no quota-consumption event. -/
theorem processMentions_no_consume (agent : Agent) (env : Env) (l : List Mention) :
    (processMentions agent env l).1.countP isConsumeEvent = 0 := by
  induction l with
  | nil => simp [processMentions]
  | cons m rest ih =>
    cases hx : env.executeAgent agent.id m.text (agent.id ++ "-twitter-" ++ m.author_id) with
    | error e => simp [processMentions, hx, isConsumeEvent]
    | ok r =>
      cases hy : env.createTweet (String.intercalate "\n" r) m.id with
      | error e => simp [processMentions, hx, hy, isConsumeEvent]
      | ok u => simp [processMentions, hx, hy, isConsumeEvent, ih]

/-! Concrete fixtures used by the witness theorems. -/

def wQuota : QuotaState := ⟨0, 5, 0, 50⟩

def wQuotaFull : QuotaState := ⟨5, 5, 3, 50⟩

def wAgent : Agent := ⟨"A", true, some [("bearer_token", "x")]⟩

def wState : AgentState := ⟨some (some "900"), wQuota⟩

def wStateFull : AgentState := ⟨some (some "900"), wQuotaFull⟩

def wM1 : Mention := ⟨"1001", "u1", "hello"⟩

def wM2 : Mention := ⟨"1002", "u2", "hi"⟩

def wRespOk : MentionsResp := ⟨[wM1, wM2], [("newest_id", "1002"), ("result_count", "2")]⟩

def wEnvOk : Env :=
  { quotaGetExc := none
    hasQuotaExc := none
    getMe := .ok (some "self")
    getMentions := .ok wRespOk
    executeAgent := fun _ _ _ => .ok ["line one", "line two"]
    createTweet := fun _ _ => .ok () }

def wEnvEmpty : Env := { wEnvOk with getMentions := .ok ⟨[], []⟩ }

def wEnvQuotaExc : Env := { wEnvOk with quotaGetExc := some "db down" }

def wEnvMeExc : Env := { wEnvOk with getMe := .error "network down" }

def wEnvFailTweet : Env := { wEnvOk with createTweet := fun _ _ => .error "boom" }

def wEnvNoMeta : Env := { wEnvOk with getMentions := .ok ⟨[wM1], []⟩ }

def cRespNoNid : MentionsResp := ⟨[wM1], [("result_count", "1")]⟩

def cEnvNoNid : Env := { wEnvOk with getMentions := .ok cRespNoNid }

/-- C3: a cycle whose fetch returns zero mentions ends successfully — the
whole cycle is exactly the client build, identity and fetch calls plus the
no-mentions info log; the state (cursor and quota) is returned unchanged and
the body raises no error. -/
theorem C3_zero_mentions_noop (agent : Agent) (env : Env) (st : AgentState)
    (resp : MentionsResp) (uid : String)
    (h1 : env.quotaGetExc = none) (h2 : env.hasQuotaExc = none)
    (hq : has_twitter_quota st.quota = true)
    (hc : configTruthy agent.twitter_config = true)
    (hme : env.getMe = .ok (some uid))
    (hm : env.getMentions = .ok resp)
    (hz : resp.data = []) :
    runAgentCycle agent env st =
      (st, [.buildClient agent.id, .callGetMe agent.id,
            .callGetMentions agent.id st.cursor.join, .logInfoNoMentions agent.id]) ∧
    (cycleBody agent env st).2.2 = none := by
  constructor
  · simp [runAgentCycle, cycleBody, h1, h2, hq, hc, hme, hm, hz]
  · simp [cycleBody, h1, h2, hq, hc, hme, hm, hz]

/-- Witness for C3 at a concrete agent, state and environment. -/
theorem C3_zero_mentions_noop_witness :
    runAgentCycle wAgent wEnvEmpty wState =
      (wState, [.buildClient "A", .callGetMe "A",
            .callGetMentions "A" (some "900"), .logInfoNoMentions "A"]) ∧
    (cycleBody wAgent wEnvEmpty wState).2.2 = none :=
  C3_zero_mentions_noop wAgent wEnvEmpty wState ⟨[], []⟩ "self"
    rfl rfl (by decide) (by decide) rfl rfl rfl

/-- C6: when the quota check returns false, the cycle performs nothing but
the warning log — no client build, no fetch, no cursor write, no quota
consumption — and the tick goes on to process the remaining accounts. -/
theorem C6_no_quota_skips (agent : Agent) (env : Env) (st : AgentState)
    (h1 : env.quotaGetExc = none) (h2 : env.hasQuotaExc = none)
    (hq : has_twitter_quota st.quota = false)
    (hen : agent.twitter_enabled = true)
    (hcf : agent.twitter_config.isSome = true) :
    runAgentCycle agent env st =
      (st, [.logWarnNoQuota agent.id st.quota.twitter_count_daily st.quota.twitter_limit_daily
              st.quota.twitter_count_total st.quota.twitter_limit_total]) ∧
    ∀ (rest : List Agent) (envF : Agent → Env) (stF : String → AgentState),
      run_twitter_agents (agent :: rest) envF stF =
        (agent.id, runAgentCycle agent (envF agent) (stF agent.id)) ::
          run_twitter_agents rest envF stF := by
  constructor
  · simp [runAgentCycle, cycleBody, h1, h2, hq]
  · intro rest envF stF
    simp [run_twitter_agents, twitterEnabledFilter, hen, hcf]

/-- Witness for C6 at a concrete exhausted-quota state. -/
theorem C6_no_quota_skips_witness :
    runAgentCycle wAgent wEnvOk wStateFull =
      (wStateFull, [.logWarnNoQuota "A" 5 5 3 50]) ∧
    ∀ (rest : List Agent) (envF : Agent → Env) (stF : String → AgentState),
      run_twitter_agents (wAgent :: rest) envF stF =
        ("A", runAgentCycle wAgent (envF wAgent) (stF "A")) ::
          run_twitter_agents rest envF stF :=
  C6_no_quota_skips wAgent wEnvOk wStateFull rfl rfl (by decide) rfl rfl

/-- C7: an uncaught exception from the cycle body is caught at the account
boundary: the final state is whatever the body left, the trace is the body's
events followed by the error log carrying the agent id and the message, and
every tick still produces one entry per enabled agent. -/
theorem C7_errors_isolated (agent : Agent) (env : Env) (st : AgentState) (e : String)
    (h : (cycleBody agent env st).2.2 = some e) :
    (runAgentCycle agent env st).1 = (cycleBody agent env st).1 ∧
    (runAgentCycle agent env st).2 =
      (cycleBody agent env st).2.1 ++
        [.logErrProcessing agent.id
          ("Error processing twitter mentions for agent " ++ agent.id ++ ": " ++ e)] ∧
    ∀ (agents : List Agent) (envF : Agent → Env) (stF : String → AgentState),
      (run_twitter_agents agents envF stF).map Prod.fst =
        (twitterEnabledFilter agents).map Agent.id := by
  refine ⟨?_, ?_, ?_⟩
  · rcases hcb : cycleBody agent env st with ⟨st1, evs, err⟩
    rw [hcb] at h
    simp only at h
    subst h
    simp [runAgentCycle, hcb]
  · rcases hcb : cycleBody agent env st with ⟨st1, evs, err⟩
    rw [hcb] at h
    simp only at h
    subst h
    simp [runAgentCycle, hcb]
  · intro agents envF stF
    simp [run_twitter_agents]

/-- Witness for C7: a `get_me` failure is logged and isolated. -/
theorem C7_errors_isolated_witness :
    (runAgentCycle wAgent wEnvMeExc wState).1 = (cycleBody wAgent wEnvMeExc wState).1 ∧
    (runAgentCycle wAgent wEnvMeExc wState).2 =
      (cycleBody wAgent wEnvMeExc wState).2.1 ++
        [.logErrProcessing "A"
          ("Error processing twitter mentions for agent " ++ "A" ++ ": " ++ "network down")] ∧
    ∀ (agents : List Agent) (envF : Agent → Env) (stF : String → AgentState),
      (run_twitter_agents agents envF stF).map Prod.fst =
        (twitterEnabledFilter agents).map Agent.id :=
  C7_errors_isolated wAgent wEnvMeExc wState "network down" rfl

/-- C10: an exception while loading the quota record or while running the
quota check is caught by the same per-account handler — the cycle's whole
trace is the error log, the state is untouched, and the tick still processes
every enabled agent. -/
theorem C10_quota_steps_in_try (agent : Agent) (env : Env) (st : AgentState) (e : String)
    (h : env.quotaGetExc = some e ∨ (env.quotaGetExc = none ∧ env.hasQuotaExc = some e)) :
    runAgentCycle agent env st =
      (st, [.logErrProcessing agent.id
        ("Error processing twitter mentions for agent " ++ agent.id ++ ": " ++ e)]) ∧
    ∀ (agents : List Agent) (envF : Agent → Env) (stF : String → AgentState),
      (run_twitter_agents agents envF stF).length = (twitterEnabledFilter agents).length := by
  constructor
  · rcases h with h | ⟨hq1, hq2⟩
    · simp [runAgentCycle, cycleBody, h]
    · simp [runAgentCycle, cycleBody, hq1, hq2]
  · intro agents envF stF
    simp [run_twitter_agents]

/-- Witness for C10: a quota-load failure is logged and isolated. -/
theorem C10_quota_steps_in_try_witness :
    runAgentCycle wAgent wEnvQuotaExc wState =
      (wState, [.logErrProcessing "A"
        ("Error processing twitter mentions for agent " ++ "A" ++ ": " ++ "db down")]) ∧
    ∀ (agents : List Agent) (envF : Agent → Env) (stF : String → AgentState),
      (run_twitter_agents agents envF stF).length = (twitterEnabledFilter agents).length :=
  C10_quota_steps_in_try wAgent wEnvQuotaExc wState "db down" (Or.inl rfl)

/-- C2: a successful cycle with at least one mention and a present newest-id
marker stores exactly that marker as the new cursor, increments the daily and
total counters by one each (limits untouched), and emits exactly one
quota-consumption event, regardless of how many mentions were processed. -/
theorem C2_success_updates (agent : Agent) (env : Env) (st : AgentState)
    (resp : MentionsResp) (nid uid : String)
    (h1 : env.quotaGetExc = none) (h2 : env.hasQuotaExc = none)
    (hq : has_twitter_quota st.quota = true)
    (hc : configTruthy agent.twitter_config = true)
    (hme : env.getMe = .ok (some uid))
    (hm : env.getMentions = .ok resp)
    (hne : resp.data.isEmpty = false)
    (hnid : resp.meta.lookup "newest_id" = some nid)
    (hok : (processMentions agent env resp.data).2 = none) :
    (runAgentCycle agent env st).1.cursor = some (some nid) ∧
    (runAgentCycle agent env st).1.quota.twitter_count_daily =
      st.quota.twitter_count_daily + 1 ∧
    (runAgentCycle agent env st).1.quota.twitter_count_total =
      st.quota.twitter_count_total + 1 ∧
    (runAgentCycle agent env st).1.quota.twitter_limit_daily =
      st.quota.twitter_limit_daily ∧
    (runAgentCycle agent env st).1.quota.twitter_limit_total =
      st.quota.twitter_limit_total ∧
    (runAgentCycle agent env st).2.countP isConsumeEvent = 1 := by
  have hmeta : resp.meta.isEmpty = false := lookup_some_isEmpty_false hnid
  simp [runAgentCycle, cycleBody, h1, h2, hq, hc, hme, hm, hne, hmeta, hnid, hok,
        add_twitter, processMentions_no_consume, isConsumeEvent]

/-- Witness for C2: two mentions, newest id `"1002"`, quota `0/5, 0/50`
becomes `1/5, 1/50` and the cursor becomes `"1002"`. -/
theorem C2_success_updates_witness :
    (runAgentCycle wAgent wEnvOk wState).1.cursor = some (some "1002") ∧
    (runAgentCycle wAgent wEnvOk wState).1.quota.twitter_count_daily =
      wState.quota.twitter_count_daily + 1 ∧
    (runAgentCycle wAgent wEnvOk wState).1.quota.twitter_count_total =
      wState.quota.twitter_count_total + 1 ∧
    (runAgentCycle wAgent wEnvOk wState).1.quota.twitter_limit_daily =
      wState.quota.twitter_limit_daily ∧
    (runAgentCycle wAgent wEnvOk wState).1.quota.twitter_limit_total =
      wState.quota.twitter_limit_total ∧
    (runAgentCycle wAgent wEnvOk wState).2.countP isConsumeEvent = 1 :=
  C2_success_updates wAgent wEnvOk wState wRespOk "1002" "self"
    rfl rfl (by decide) (by decide) rfl rfl (by decide) (by decide) rfl

/-- C4: in a cycle that reaches mention processing, the cursor save occurs in
the trace strictly before any response-engine invocation: the trace splits at
the save event and no engine call precedes it. -/
theorem C4_cursor_saved_before_processing (agent : Agent) (env : Env) (st : AgentState)
    (resp : MentionsResp) (uid : String)
    (h1 : env.quotaGetExc = none) (h2 : env.hasQuotaExc = none)
    (hq : has_twitter_quota st.quota = true)
    (hc : configTruthy agent.twitter_config = true)
    (hme : env.getMe = .ok (some uid))
    (hm : env.getMentions = .ok resp)
    (hne : resp.data.isEmpty = false)
    (hmeta : resp.meta.isEmpty = false) :
    ∃ l1 l2, (runAgentCycle agent env st).2 =
        l1 ++ .saveCursor agent.id (resp.meta.lookup "newest_id") :: l2 ∧
      ∀ e ∈ l1, isExecuteEvent e = false := by
  cases hr : (processMentions agent env resp.data).2 with
  | none =>
      refine ⟨[.buildClient agent.id, .callGetMe agent.id,
               .callGetMentions agent.id st.cursor.join],
              (processMentions agent env resp.data).1 ++ [.consumeQuota agent.id], ?_, ?_⟩
      · simp [runAgentCycle, cycleBody, h1, h2, hq, hc, hme, hm, hne, hmeta, hr]
      · intro e he
        simp only [List.mem_cons, List.not_mem_nil, or_false] at he
        rcases he with rfl | rfl | rfl <;> rfl
  | some err =>
      refine ⟨[.buildClient agent.id, .callGetMe agent.id,
               .callGetMentions agent.id st.cursor.join],
              (processMentions agent env resp.data).1 ++
                [.logErrProcessing agent.id
                  ("Error processing twitter mentions for agent " ++ agent.id ++ ": " ++ err)],
              ?_, ?_⟩
      · simp [runAgentCycle, cycleBody, h1, h2, hq, hc, hme, hm, hne, hmeta, hr]
      · intro e he
        simp only [List.mem_cons, List.not_mem_nil, or_false] at he
        rcases he with rfl | rfl | rfl <;> rfl

/-- Witness for C4 at a concrete two-mention cycle. -/
theorem C4_cursor_saved_before_processing_witness :
    ∃ l1 l2, (runAgentCycle wAgent wEnvOk wState).2 =
        l1 ++ .saveCursor "A" (wRespOk.meta.lookup "newest_id") :: l2 ∧
      ∀ e ∈ l1, isExecuteEvent e = false :=
  C4_cursor_saved_before_processing wAgent wEnvOk wState wRespOk "self"
    rfl rfl (by decide) (by decide) rfl rfl (by decide) (by decide)

/-- C8: the mention loop, when every downstream call succeeds, handles the
mentions in fetch order; each mention contributes exactly an engine call with
the mention's text and the thread id `agentId ++ "-twitter-" ++ authorId`,
followed by a reply post whose text is the returned lines joined with
line breaks and whose reply-to id is that mention's id. -/
theorem C8_per_mention_protocol (agent : Agent) (env : Env) (l : List Mention)
    (resp : Mention → List String)
    (hall : ∀ m ∈ l,
      env.executeAgent agent.id m.text (agent.id ++ "-twitter-" ++ m.author_id) =
        .ok (resp m) ∧
      env.createTweet (String.intercalate "\n" (resp m)) m.id = .ok ()) :
    processMentions agent env l =
      (l.flatMap (fun m =>
        [Event.callExecuteAgent agent.id m.text (agent.id ++ "-twitter-" ++ m.author_id),
         Event.callCreateTweet (String.intercalate "\n" (resp m)) m.id]), none) := by
  induction l with
  | nil => simp [processMentions]
  | cons m rest ih =>
    obtain ⟨he, hc⟩ := hall m (List.mem_cons_self m rest)
    have ih' := ih (fun x hx => hall x (List.mem_cons_of_mem m hx))
    simp [processMentions, he, hc, ih']

/-- Witness for C8 at two concrete mentions. -/
theorem C8_per_mention_protocol_witness :
    processMentions wAgent wEnvOk [wM1, wM2] =
      ([Event.callExecuteAgent "A" "hello" "A-twitter-u1",
        Event.callCreateTweet "line one\nline two" "1001",
        Event.callExecuteAgent "A" "hi" "A-twitter-u2",
        Event.callCreateTweet "line one\nline two" "1002"], none) :=
  C8_per_mention_protocol wAgent wEnvOk [wM1, wM2]
    (fun _ => ["line one", "line two"]) (fun _ _ => ⟨rfl, rfl⟩)

/-- Splitting the mention loop: when a prefix of the list processes without
error, the loop on the whole list runs the prefix and then the rest. -/
theorem processMentions_append_ok (agent : Agent) (env : Env) (l1 l2 : List Mention)
    (h : (processMentions agent env l1).2 = none) :
    processMentions agent env (l1 ++ l2) =
      ((processMentions agent env l1).1 ++ (processMentions agent env l2).1,
       (processMentions agent env l2).2) := by
  induction l1 with
  | nil => simp [processMentions]
  | cons m rest ih =>
    cases hx : env.executeAgent agent.id m.text (agent.id ++ "-twitter-" ++ m.author_id) with
    | error e =>
        simp [processMentions, hx] at h
    | ok r =>
      cases hy : env.createTweet (String.intercalate "\n" r) m.id with
      | error e =>
          simp [processMentions, hx, hy] at h
      | ok u =>
          have h' : (processMentions agent env rest).2 = none := by
            simpa [processMentions, hx, hy] using h
          simp [processMentions, hx, hy, ih h']

/-- A mention whose own processing fails stops the loop: the mentions after
it contribute nothing to the trace and the error is the head's error. -/
theorem processMentions_cons_fail (agent : Agent) (env : Env) (m : Mention)
    (post : List Mention)
    (h : (processMentions agent env [m]).2.isSome = true) :
    processMentions agent env (m :: post) = processMentions agent env [m] := by
  cases hx : env.executeAgent agent.id m.text (agent.id ++ "-twitter-" ++ m.author_id) with
  | error e => simp [processMentions, hx]
  | ok r =>
    cases hy : env.createTweet (String.intercalate "\n" r) m.id with
    | error e => simp [processMentions, hx, hy]
    | ok u =>
        simp [processMentions, hx, hy] at h

/-- C5: when some mention's engine call or reply post fails after an
error-free prefix, the cycle's trace contains exactly the prefix's events, the
failing mention's events and the error log — nothing for any later mention —
and the quota counters are left untouched. -/
theorem C5_downstream_failure_aborts (agent : Agent) (env : Env) (st : AgentState)
    (resp : MentionsResp) (uid e : String) (pre post : List Mention) (m : Mention)
    (h1 : env.quotaGetExc = none) (h2 : env.hasQuotaExc = none)
    (hq : has_twitter_quota st.quota = true)
    (hc : configTruthy agent.twitter_config = true)
    (hme : env.getMe = .ok (some uid))
    (hm : env.getMentions = .ok resp)
    (hdata : resp.data = pre ++ m :: post)
    (hmeta : resp.meta.isEmpty = false)
    (hpre : (processMentions agent env pre).2 = none)
    (hfail : (processMentions agent env [m]).2 = some e) :
    (runAgentCycle agent env st).1.quota = st.quota ∧
    (runAgentCycle agent env st).2 =
      [.buildClient agent.id, .callGetMe agent.id,
       .callGetMentions agent.id st.cursor.join,
       .saveCursor agent.id (resp.meta.lookup "newest_id")] ++
      (processMentions agent env pre).1 ++ (processMentions agent env [m]).1 ++
      [.logErrProcessing agent.id
        ("Error processing twitter mentions for agent " ++ agent.id ++ ": " ++ e)] := by
  have hne : resp.data.isEmpty = false := by simp [hdata]
  have hsplit : processMentions agent env resp.data =
      ((processMentions agent env pre).1 ++ (processMentions agent env [m]).1, some e) := by
    rw [hdata, processMentions_append_ok agent env pre (m :: post) hpre,
        processMentions_cons_fail agent env m post (by simp [hfail])]
    rw [hfail]
  constructor
  · simp [runAgentCycle, cycleBody, h1, h2, hq, hc, hme, hm, hne, hmeta, hsplit]
  · simp [runAgentCycle, cycleBody, h1, h2, hq, hc, hme, hm, hne, hmeta, hsplit]

/-- Witness for C5: the reply post for the first of two mentions fails, so the
second mention is never touched and the quota stays at its prior value. -/
theorem C5_downstream_failure_aborts_witness :
    (runAgentCycle wAgent wEnvFailTweet wState).1.quota = wState.quota ∧
    (runAgentCycle wAgent wEnvFailTweet wState).2 =
      [.buildClient "A", .callGetMe "A",
       .callGetMentions "A" (some "900"),
       .saveCursor "A" (wRespOk.meta.lookup "newest_id")] ++
      (processMentions wAgent wEnvFailTweet []).1 ++
      (processMentions wAgent wEnvFailTweet [wM1]).1 ++
      [.logErrProcessing "A"
        ("Error processing twitter mentions for agent " ++ "A" ++ ": " ++ "boom")] :=
  C5_downstream_failure_aborts wAgent wEnvFailTweet wState wRespOk "self" "boom"
    [] [wM2] wM1 rfl rfl (by decide) (by decide) rfl rfl rfl (by decide) rfl rfl

/-- The per-account handler only ever appends (the error log) to the body's
trace. -/
theorem runAgentCycle_events_extends (agent : Agent) (env : Env) (st : AgentState) :
    ∃ tail, (runAgentCycle agent env st).2 = (cycleBody agent env st).2.1 ++ tail := by
  rcases hcb : cycleBody agent env st with ⟨st1, evs, err⟩
  cases err with
  | none => exact ⟨[], by simp [runAgentCycle, hcb]⟩
  | some e =>
      exact ⟨[.logErrProcessing agent.id
        ("Error processing twitter mentions for agent " ++ agent.id ++ ": " ++ e)],
        by simp [runAgentCycle, hcb]⟩

/-- Any cycle that passes the quota, config and identity steps emits a fetch
call carrying the stored cursor, whatever happens afterwards. -/
theorem callGetMentions_mem_cycle (agent : Agent) (env : Env) (st : AgentState)
    (uid : String)
    (h1 : env.quotaGetExc = none) (h2 : env.hasQuotaExc = none)
    (hq : has_twitter_quota st.quota = true)
    (hc : configTruthy agent.twitter_config = true)
    (hme : env.getMe = .ok (some uid)) :
    Event.callGetMentions agent.id st.cursor.join ∈ (runAgentCycle agent env st).2 := by
  obtain ⟨tail, htail⟩ := runAgentCycle_events_extends agent env st
  rw [htail]
  refine List.mem_append_left _ ?_
  cases hgm : env.getMentions with
  | error e => simp [cycleBody, h1, h2, hq, hc, hme, hgm]
  | ok mentions =>
    cases hd : mentions.data.isEmpty with
    | true => simp [cycleBody, h1, h2, hq, hc, hme, hgm, hd]
    | false =>
      cases hmm : mentions.meta.isEmpty with
      | true => simp [cycleBody, h1, h2, hq, hc, hme, hgm, hd, hmm]
      | false =>
        cases hr : (processMentions agent env mentions.data).2 with
        | none => simp [cycleBody, h1, h2, hq, hc, hme, hgm, hd, hmm, hr]
        | some e => simp [cycleBody, h1, h2, hq, hc, hme, hgm, hd, hmm, hr]

/-- C9: when the mention loop fails after the cursor save, the cursor keeps
the freshly written newest-id value (it is not rolled back) and the quota is
untouched; a later cycle started from that state fetches with exactly that
marker as its since-id. -/
theorem C9_cursor_retained_after_failure (agent : Agent) (env : Env) (st : AgentState)
    (resp : MentionsResp) (uid e : String)
    (h1 : env.quotaGetExc = none) (h2 : env.hasQuotaExc = none)
    (hq : has_twitter_quota st.quota = true)
    (hc : configTruthy agent.twitter_config = true)
    (hme : env.getMe = .ok (some uid))
    (hm : env.getMentions = .ok resp)
    (hne : resp.data.isEmpty = false)
    (hmeta : resp.meta.isEmpty = false)
    (hfail : (processMentions agent env resp.data).2 = some e) :
    (runAgentCycle agent env st).1.cursor = some (resp.meta.lookup "newest_id") ∧
    (runAgentCycle agent env st).1.quota = st.quota ∧
    ∀ (env2 : Env) (uid2 : String),
      env2.quotaGetExc = none → env2.hasQuotaExc = none →
      env2.getMe = .ok (some uid2) →
      Event.callGetMentions agent.id (resp.meta.lookup "newest_id") ∈
        (runAgentCycle agent env2 (runAgentCycle agent env st).1).2 := by
  have hstate : (runAgentCycle agent env st).1 =
      { st with cursor := some (resp.meta.lookup "newest_id") } := by
    simp [runAgentCycle, cycleBody, h1, h2, hq, hc, hme, hm, hne, hmeta, hfail]
  refine ⟨by rw [hstate], by rw [hstate], ?_⟩
  intro env2 uid2 g1 g2 gme
  rw [hstate]
  have hmem := callGetMentions_mem_cycle agent env2
    { st with cursor := some (resp.meta.lookup "newest_id") } uid2 g1 g2 hq hc gme
  simpa using hmem

/-- Witness for C9: after a failed cycle the cursor holds `"1002"` and the
next cycle's fetch uses it. -/
theorem C9_cursor_retained_after_failure_witness :
    (runAgentCycle wAgent wEnvFailTweet wState).1.cursor =
      some (wRespOk.meta.lookup "newest_id") ∧
    (runAgentCycle wAgent wEnvFailTweet wState).1.quota = wState.quota ∧
    Event.callGetMentions "A" (wRespOk.meta.lookup "newest_id") ∈
      (runAgentCycle wAgent wEnvOk (runAgentCycle wAgent wEnvFailTweet wState).1).2 := by
  obtain ⟨a, b, c⟩ := C9_cursor_retained_after_failure wAgent wEnvFailTweet wState
    wRespOk "self" "boom" rfl rfl (by decide) (by decide) rfl rfl
    (by decide) (by decide) rfl
  exact ⟨a, b, c wEnvOk "self" rfl rfl rfl⟩

/-- C1 as stated is refuted on the code: a fetch returning one mention and a
non-empty meta dict lacking the `newest_id` key — so no newest-id marker
accompanies the results — does not fail the cycle: no error is recorded, the
stored cursor is overwritten (with an empty marker, losing its prior value),
and quota IS consumed. -/
theorem C1_counterexample :
    cRespNoNid.data ≠ [] ∧
    cRespNoNid.meta.lookup "newest_id" = none ∧
    cEnvNoNid.getMentions = Except.ok cRespNoNid ∧
    (cycleBody wAgent cEnvNoNid wState).2.2 = none ∧
    (runAgentCycle wAgent cEnvNoNid wState).2.countP isErrorLogEvent = 0 ∧
    (runAgentCycle wAgent cEnvNoNid wState).1.cursor = some none ∧
    (runAgentCycle wAgent cEnvNoNid wState).1.cursor ≠ wState.cursor ∧
    (runAgentCycle wAgent cEnvNoNid wState).1.quota ≠ wState.quota ∧
    (runAgentCycle wAgent cEnvNoNid wState).2.countP isConsumeEvent = 1 := by
  refine ⟨by decide, by decide, rfl, by decide, by decide, by decide, by decide,
    by decide, by decide⟩

/-- C1 (amended): when the fetch returns a non-empty mention list and the
accompanying meta object is absent/empty — so no newest-id marker is available
— the cycle fails with a recorded error, the stored cursor keeps its prior
value, and quota is not consumed. (If a non-empty meta merely lacks the
newest-id key, the code instead overwrites the cursor with an empty marker and
proceeds; see the counterexample.) -/
theorem C1_missing_meta_fails (agent : Agent) (env : Env) (st : AgentState)
    (resp : MentionsResp) (uid : String)
    (h1 : env.quotaGetExc = none) (h2 : env.hasQuotaExc = none)
    (hq : has_twitter_quota st.quota = true)
    (hc : configTruthy agent.twitter_config = true)
    (hme : env.getMe = .ok (some uid))
    (hm : env.getMentions = .ok resp)
    (hne : resp.data.isEmpty = false)
    (hmeta : resp.meta.isEmpty = true) :
    runAgentCycle agent env st =
      (st, [.buildClient agent.id, .callGetMe agent.id,
            .callGetMentions agent.id st.cursor.join,
            .logErrProcessing agent.id
              ("Error processing twitter mentions for agent " ++ agent.id ++ ": " ++
               ("Failed to get last tweet id for agent " ++ agent.id))]) := by
  simp [runAgentCycle, cycleBody, h1, h2, hq, hc, hme, hm, hne, hmeta]

/-- Witness for the amended C1: one mention, empty meta — the state is
untouched and only the error log follows the fetch. -/
theorem C1_missing_meta_fails_witness :
    runAgentCycle wAgent wEnvNoMeta wState =
      (wState, [.buildClient "A", .callGetMe "A",
            .callGetMentions "A" (some "900"),
            .logErrProcessing "A"
              ("Error processing twitter mentions for agent " ++ "A" ++ ": " ++
               ("Failed to get last tweet id for agent " ++ "A"))]) :=
  C1_missing_meta_fails wAgent wEnvNoMeta wState ⟨[wM1], []⟩ "self"
    rfl rfl (by decide) (by decide) rfl rfl (by decide) (by decide)

end Intentkit
